import Mathlib

/-!
Verification of the orchestration core of the data-pipeline repository:
the polling loops (`scripts/deploy_lambda.py` and `test_pipeline.py`),
the crawler test stage, and the cleanup workflow (`scripts/cleanup_aws.py`).
Each Python function is shallowly embedded as an executable Lean function;
remote AWS calls are modelled as explicit inputs (status sequences,
`Except`-valued responses), and the observable behaviour (returned values,
invocation traces, fetch and sleep counts) is made explicit.
-/

namespace DataPipeline

/-- Outcome of a bounded polling loop, distinguishing the three exit paths of
the Python loops: success return, terminal-failure return, loop exhaustion. -/
inductive PollResult where
  | Succeeded : PollResult
  | FailedTerminal : PollResult
  | TimedOut : PollResult
deriving DecidableEq, Repr

/-- Observable trace of one polling loop run: its result, how many status
fetches it performed, and how many times it slept. -/
structure PollTrace where
  result : PollResult
  fetches : Nat
  sleeps : Nat
deriving DecidableEq, Repr

/-- Embedding of the loop body of `wait_for_function_ready` in
`scripts/deploy_lambda.py` (lines 152-173): at attempt `i` fetch the function
state `seq i`; state `Active` returns success immediately; state `Pending`
sleeps and retries; any other state returns failure immediately
(`Unexpected Lambda state`); exhausting the attempt budget is the timeout
return after the loop. -/
def waitAux (seq : Nat → String) (i : Nat) : Nat → PollTrace
  | 0 => ⟨PollResult.TimedOut, 0, 0⟩
  | fuel + 1 =>
    if seq i = "Active" then ⟨PollResult.Succeeded, 1, 0⟩
    else if seq i = "Pending" then
      let t := waitAux seq (i + 1) fuel
      ⟨t.result, t.fetches + 1, t.sleeps + 1⟩
    else ⟨PollResult.FailedTerminal, 1, 0⟩

/-- `wait_for_function_ready(function_name, max_attempts)` viewed as a
function of the sequence of states the repeated `get_function` calls
would observe. -/
def waitForFunctionReady (seq : Nat → String) (maxAttempts : Nat) : PollTrace :=
  waitAux seq 0 maxAttempts

/-- Embedding of the inner status-polling loop of
`DataPipelineTester.test_athena_query` in `test_pipeline.py` (lines 162-217):
at attempt `i` fetch the query state `seq i`; `SUCCEEDED` breaks with success;
`FAILED` or `CANCELLED` breaks with failure; any other status (QUEUED,
RUNNING, or anything unrecognized) sleeps two seconds and retries; the
`for`-`else` clause reports TIMEOUT when the budget is exhausted. -/
def queryPollAux (seq : Nat → String) (i : Nat) : Nat → PollTrace
  | 0 => ⟨PollResult.TimedOut, 0, 0⟩
  | fuel + 1 =>
    if seq i = "SUCCEEDED" then ⟨PollResult.Succeeded, 1, 0⟩
    else if seq i = "FAILED" then ⟨PollResult.FailedTerminal, 1, 0⟩
    else if seq i = "CANCELLED" then ⟨PollResult.FailedTerminal, 1, 0⟩
    else
      let t := queryPollAux seq (i + 1) fuel
      ⟨t.result, t.fetches + 1, t.sleeps + 1⟩

/-- The Athena status loop with an explicit attempt budget. -/
def queryPollLoop (seq : Nat → String) (maxAttempts : Nat) : PollTrace :=
  queryPollAux seq 0 maxAttempts

/-- The Athena status loop as written in the source, with `max_attempts = 30`. -/
def queryPoll (seq : Nat → String) : PollTrace :=
  queryPollLoop seq 30

/-- Query statuses on which the Athena loop keeps waiting: everything that is
not `SUCCEEDED`, `FAILED` or `CANCELLED`. -/
def queryWaits (s : String) : Prop :=
  s ≠ "SUCCEEDED" ∧ s ≠ "FAILED" ∧ s ≠ "CANCELLED"

/-- Helper for Python's `pat in s` substring test: does the pattern occur at
the head of the character list? -/
def strStartsWith : List Char → List Char → Bool
  | [], _ => true
  | _ :: _, [] => false
  | a :: as, b :: bs => a == b && strStartsWith as bs

/-- Helper for Python's `pat in s` substring test: does the pattern occur
anywhere in the character list? -/
def strFindSub (pat : List Char) : List Char → Bool
  | [] => strStartsWith pat []
  | b :: bs => strStartsWith pat (b :: bs) || strFindSub pat bs

/-- Python's `pat in s` substring containment on strings. -/
def containsSub (s pat : String) : Bool :=
  strFindSub pat.data s.data

/-- The configuration dictionary built in `DataPipelineCleanup.__init__`
(`scripts/cleanup_aws.py` lines 27-33), with the two bucket keys that
`get_stack_resources` may later add modelled as `Option`s (absent = the key
is not in the dictionary). -/
structure Config where
  stack_name : String
  workgroup_name : String
  database_name : String
  crawler_name : String
  lambda_function_name : String
  data_bucket : Option String
  results_bucket : Option String
deriving DecidableEq, Repr

/-- The literal defaults of `DataPipelineCleanup.__init__`. -/
def defaultConfig : Config :=
  ⟨"DataPipelineStack", "data-pipeline-workgroup", "data_pipeline_db",
   "data-pipeline-crawler", "data-pipeline-data-extractor", none, none⟩

/-- One entry of a CloudFormation stack's `Outputs` list. -/
structure StackOutput where
  key : String
  value : String
deriving DecidableEq, Repr

/-- The part of a `describe_stacks` stack record the scripts consult:
`StackStatus` and `Outputs`. -/
structure StackDesc where
  status : String
  outputs : List StackOutput
deriving DecidableEq, Repr

/-- The output-scanning loop of `get_stack_resources` (lines 60-69):
fold over the stack outputs, recording `DataBucketName`,
`AthenaResultsBucketName` and `LambdaFunctionName` into the config. -/
def applyOutputs : List StackOutput → Config → Config
  | [], cfg => cfg
  | o :: rest, cfg =>
    applyOutputs rest
      (if o.key = "DataBucketName" then { cfg with data_bucket := some o.value }
       else if o.key = "AthenaResultsBucketName" then { cfg with results_bucket := some o.value }
       else if o.key = "LambdaFunctionName" then { cfg with lambda_function_name := o.value }
       else cfg)

/-- Embedding of `DataPipelineCleanup.get_stack_resources` (lines 42-77).
The `describe_stacks` call is an explicit `Except`-valued input (`error` =
the caught exception path). Returns the updated config, the boolean the
Python function returns (`stack_exists` at the call site), and whether the
`Will use default resource names` warning path was taken. -/
def get_stack_resources (resp : Except String (List StackDesc)) (cfg : Config) :
    Config × Bool × Bool :=
  match resp with
  | Except.error _ => (cfg, false, true)
  | Except.ok [] => (cfg, false, false)
  | Except.ok (stack :: _) =>
    if containsSub stack.status "DELETE" then (cfg, false, false)
    else (applyOutputs stack.outputs cfg, true, false)

/-- The externally visible actions `run_cleanup` can perform, used to record
invocation traces. -/
inductive CleanupAction where
  | cleanWorkgroup : CleanupAction
  | emptyBuckets : CleanupAction
  | cdkDestroy : CleanupAction
  | deleteFunction : String → CleanupAction
  | deleteCrawler : String → CleanupAction
  | deleteDatabase : String → CleanupAction
  | deleteBucket : String → CleanupAction
  | forceDeleteStack : String → CleanupAction
  | verify : CleanupAction
deriving DecidableEq, Repr

/-- One `try: <delete call> except: <print>` block of
`manual_resource_cleanup`: the call is invoked and its outcome — success or
a caught exception — does not change the control flow. -/
def runStep (a : CleanupAction) (outcome : CleanupAction → Except String Unit) :
    List CleanupAction :=
  match outcome a with
  | Except.ok _ => [a]
  | Except.error _ => [a]

/-- The bucket-deletion tail of `manual_resource_cleanup` (lines 218-228):
for each of `data_bucket`, `results_bucket`, in that order, a delete is
attempted only when the key is present in the config. -/
def bucketDeletes (cfg : Config) : List CleanupAction :=
  (match cfg.data_bucket with
   | some b => [CleanupAction.deleteBucket b]
   | none => []) ++
  (match cfg.results_bucket with
   | some b => [CleanupAction.deleteBucket b]
   | none => [])

/-- Embedding of `DataPipelineCleanup.manual_resource_cleanup`
(lines 186-228) as the trace of delete calls it issues: Lambda function,
Glue crawler, Glue database, then the configured buckets, each wrapped in
its own `try`/`except` so an individual failure never stops the sequence. -/
def manual_resource_cleanup (cfg : Config)
    (outcome : CleanupAction → Except String Unit) : List CleanupAction :=
  runStep (CleanupAction.deleteFunction cfg.lambda_function_name) outcome ++
  runStep (CleanupAction.deleteCrawler cfg.crawler_name) outcome ++
  runStep (CleanupAction.deleteDatabase cfg.database_name) outcome ++
  (match cfg.data_bucket with
   | some b => runStep (CleanupAction.deleteBucket b) outcome
   | none => []) ++
  (match cfg.results_bucket with
   | some b => runStep (CleanupAction.deleteBucket b) outcome
   | none => [])

/-- Embedding of `DataPipelineCleanup.run_cdk_destroy` (lines 154-184):
the subprocess result is an `Except`-valued input (`error` = timeout or
exception); success means return code 0. -/
def run_cdk_destroy (r : Except String Nat) : Bool :=
  match r with
  | Except.ok rc => rc = 0
  | Except.error _ => false

/-- Embedding of the per-bucket body of `DataPipelineCleanup.empty_s3_buckets`
(lines 125-150): iterate the paginated listing; a page without `Contents` is
modelled as an empty key list and issues no delete; every non-empty page
triggers one `delete_objects` call with exactly that page's keys, whose
outcome `deleteOutcome` is an explicit input (`error` = the call raised).
The whole loop sits in one per-bucket `try`, so a raising `delete_objects`
aborts the remaining pages and jumps to the `except` at line 149-150; the
success line with its `delete_count` is then never printed, so the reported
count is `none`. Returns the reported count (`some delete_count` only when
the loop completed) and the argument lists of the `delete_objects`
invocations made, in order, the raising one included. -/
def empty_bucket_pages (deleteOutcome : List String → Except String Unit) :
    List (List String) → Option Nat × List (List String)
  | [] => (some 0, [])
  | page :: rest =>
    if page.isEmpty then empty_bucket_pages deleteOutcome rest
    else
      match deleteOutcome page with
      | Except.error _ => (none, [page])
      | Except.ok _ =>
        let r := empty_bucket_pages deleteOutcome rest
        (r.1.map (fun c => page.length + c), page :: r.2)

/-- One page of object keys for the paginated-listing scenario:
`count` keys named from `start`. -/
def scenarioPage (start count : Nat) : List String :=
  (List.range count).map (fun i => "key-" ++ toString (start + i))

/-- A paginated listing of 1,204 keys spread across 3 pages
(500 + 500 + 204). -/
def scenarioPages : List (List String) :=
  [scenarioPage 0 500, scenarioPage 500 500, scenarioPage 1000 204]

/-- The five read-only lookups `verify_cleanup` performs, each an
`Except`-valued input whose `error` constructor is the caught exception
path of the corresponding `try` block. -/
structure VerifyEnv where
  describeStacks : Except String (List StackDesc)
  listBuckets : Except String (List String)
  listFunctions : Except String (List String)
  getDatabases : Except String (List String)
  listWorkGroups : Except String (List String)
deriving Repr

/-- One category of `verify_cleanup`: the boolean appended to
`verification_results`, plus the offending identifiers the script prints
when the category fails. -/
structure CategoryResult where
  passed : Bool
  found : List String
deriving DecidableEq, Repr

/-- The CloudFormation check of `verify_cleanup` (lines 272-288): a stack
whose status contains `DELETE_COMPLETE` passes; any other status fails and
is reported; an empty stack list or an exception passes (`Stack not found`). -/
def verifyStack (resp : Except String (List StackDesc)) : CategoryResult :=
  match resp with
  | Except.error _ => ⟨true, []⟩
  | Except.ok [] => ⟨true, []⟩
  | Except.ok (stack :: _) =>
    if containsSub stack.status "DELETE_COMPLETE" then ⟨true, []⟩
    else ⟨false, [stack.status]⟩

/-- The S3 check of `verify_cleanup` (lines 290-305): list all buckets and
keep those whose name contains `data-pipeline`; pass iff none are found
(they are printed when found); an exception fails the category. -/
def verifyBuckets (resp : Except String (List String)) : CategoryResult :=
  match resp with
  | Except.error _ => ⟨false, []⟩
  | Except.ok names =>
    let found := names.filter (fun n => containsSub n "data-pipeline")
    ⟨found.isEmpty, found⟩

/-- The Lambda check of `verify_cleanup` (lines 307-322): list all functions
and keep those whose name contains `data-pipeline`; pass iff none remain;
an exception fails the category. -/
def verifyFunctions (resp : Except String (List String)) : CategoryResult :=
  match resp with
  | Except.error _ => ⟨false, []⟩
  | Except.ok names =>
    let found := names.filter (fun n => containsSub n "data-pipeline")
    ⟨found.isEmpty, found⟩

/-- The Glue check of `verify_cleanup` (lines 324-339): list databases and
keep those equal to the configured database name; pass iff none remain;
an exception fails the category. -/
def verifyDatabases (cfg : Config) (resp : Except String (List String)) :
    CategoryResult :=
  match resp with
  | Except.error _ => ⟨false, []⟩
  | Except.ok names =>
    let found := names.filter (fun n => n = cfg.database_name)
    ⟨found.isEmpty, found⟩

/-- The Athena check of `verify_cleanup` (lines 341-356): list workgroups and
keep those equal to the configured workgroup name; pass iff none remain;
an exception fails the category. -/
def verifyWorkgroups (cfg : Config) (resp : Except String (List String)) :
    CategoryResult :=
  match resp with
  | Except.error _ => ⟨false, []⟩
  | Except.ok names =>
    let found := names.filter (fun n => n = cfg.workgroup_name)
    ⟨found.isEmpty, found⟩

/-- Embedding of `DataPipelineCleanup.verify_cleanup` (lines 266-358):
the five category checks in source order, and the overall verdict
`all(verification_results)`. -/
def verify_cleanup (cfg : Config) (env : VerifyEnv) : Bool × List CategoryResult :=
  let rs := [verifyStack env.describeStacks,
             verifyBuckets env.listBuckets,
             verifyFunctions env.listFunctions,
             verifyDatabases cfg env.getDatabases,
             verifyWorkgroups cfg env.listWorkGroups]
  (rs.all (fun r => r.passed), rs)

/-- All remote interaction `run_cleanup` depends on, as explicit inputs:
the initial `describe_stacks` of `get_stack_resources`, the `cdk destroy`
subprocess result, the outcome of each individual manual delete call, and
the five verification lookups. -/
structure CleanupEnv where
  describeStacks : Except String (List StackDesc)
  cdkResult : Except String Nat
  stepOutcome : CleanupAction → Except String Unit
  verifyEnv : VerifyEnv

/-- Embedding of `DataPipelineCleanup.run_cleanup` (lines 360-406): resolve
resources, clean the workgroup, empty the buckets, then — only when the
stack was found — run `cdk destroy`, falling back to
`manual_resource_cleanup` followed by `delete_cloudformation_stack` when
it fails; when the stack was not found, run `manual_resource_cleanup`
without the forced stack delete; finally verify and return exit code 0
iff verification passed. Returns the exit code and the action trace. -/
def run_cleanup (cfg0 : Config) (env : CleanupEnv) : Nat × List CleanupAction :=
  let r := get_stack_resources env.describeStacks cfg0
  let cfg := r.1
  let stack_exists := r.2.1
  let trace :=
    [CleanupAction.cleanWorkgroup, CleanupAction.emptyBuckets] ++
    (if stack_exists then
      if run_cdk_destroy env.cdkResult then [CleanupAction.cdkDestroy]
      else [CleanupAction.cdkDestroy] ++ manual_resource_cleanup cfg env.stepOutcome ++
        [CleanupAction.forceDeleteStack cfg.stack_name]
    else manual_resource_cleanup cfg env.stepOutcome) ++
    [CleanupAction.verify]
  ((if (verify_cleanup cfg env.verifyEnv).1 then 0 else 1), trace)

/-- Observable behaviour of `DataPipelineTester.test_glue_crawler` in
`test_pipeline.py` (lines 60-83): how the call ended (`success`), whether
the `start_crawler` call was issued (regardless of whether it then raised),
how many `get_crawler` state fetches happened, and how many sleeps
occurred. -/
structure CrawlerTestTrace where
  success : Bool
  startedCrawler : Bool
  getCrawlerCalls : Nat
  sleeps : Nat
deriving DecidableEq, Repr

/-- Embedding of `DataPipelineTester.test_glue_crawler`: one `get_crawler`
call (modelled as an `Except`-valued fetch, `error` being the caught
exception path); state `READY` issues `start_crawler` — whose outcome is
the explicit input `startOutcome`, since the call sits inside the same
`try` (line 71) and a raised exception is caught and returns `False` — and
returns `True` when that call does not raise; state `RUNNING` returns
`True` immediately; any other state or a fetch exception returns `False`.
There is no loop and no sleep in the source. -/
def testGlueCrawler (fetch : Except String String)
    (startOutcome : Except String Unit) : CrawlerTestTrace :=
  match fetch with
  | Except.error _ => ⟨false, false, 1, 0⟩
  | Except.ok state =>
    if state = "READY" then
      match startOutcome with
      | Except.ok _ => ⟨true, true, 1, 0⟩
      | Except.error _ => ⟨false, true, 1, 0⟩
    else if state = "RUNNING" then ⟨true, false, 1, 0⟩
    else ⟨false, false, 1, 0⟩

/-- The configuration dictionary of `get_stack_outputs` in
`test_pipeline.py` (lines 297-328): three statically configured names plus
three values that are only present when found among the stack outputs. -/
structure TestConfig where
  glue_database_name : String
  glue_crawler_name : String
  athena_workgroup : String
  lambda_function_name : Option String
  data_bucket_name : Option String
  athena_results_bucket_name : Option String
deriving DecidableEq, Repr

/-- The static part of `get_stack_outputs`'s config (lines 305-309). -/
def defaultTestConfig : TestConfig :=
  ⟨"data_pipeline_db", "data-pipeline-crawler", "data-pipeline-workgroup",
   none, none, none⟩

/-- The output-scanning loop of `get_stack_outputs` (lines 312-322). -/
def applyTestOutputs : List StackOutput → TestConfig → TestConfig
  | [], cfg => cfg
  | o :: rest, cfg =>
    applyTestOutputs rest
      (if o.key = "LambdaFunctionName" then { cfg with lambda_function_name := some o.value }
       else if o.key = "DataBucketName" then { cfg with data_bucket_name := some o.value }
       else if o.key = "AthenaResultsBucketName" then { cfg with athena_results_bucket_name := some o.value }
       else cfg)

/-- Embedding of `get_stack_outputs` in `test_pipeline.py` (lines 297-328):
a failing `describe_stacks` call, or an empty stack list (whose indexing
raises and is caught by the same `except`), yields `None`; otherwise the
first stack's outputs are folded over the static defaults. -/
def get_stack_outputs (resp : Except String (List StackDesc)) : Option TestConfig :=
  match resp with
  | Except.error _ => none
  | Except.ok [] => none
  | Except.ok (stack :: _) => some (applyTestOutputs stack.outputs defaultTestConfig)

/-- One entry of the `queries` list of `test_athena_query`
(`test_pipeline.py` lines 113-132). -/
structure QueryInfo where
  name : String
  description : String
deriving DecidableEq, Repr

/-- The remote behaviour `test_athena_query` observes, indexed by query
position: the `start_query_execution` outcome (`error` = the caught
exception path, `ok` = the returned execution id), the status returned by
the `attempt`-th `get_query_execution` call for that query, and the outcome
of the `get_query_results` call plus row parsing performed after a
`SUCCEEDED` poll (lines 169-203; `error` = an exception there, caught by
the per-query `except` at line 219). -/
structure QueryEnv where
  submit : Nat → Except String String
  statuses : Nat → Nat → String
  results : Nat → Except String Unit

/-- The per-query loop of `test_athena_query` (lines 137-221), processing
queries in order from position `i`: a failed submission sets the aggregate
flag false and appends no record, but the remaining queries still run; a
successful submission appends `(execution_id, query_info)` to
`query_executions` before polling, then polls with `max_attempts = 30`.
The aggregate flag stays intact for a query only when its poll reaches
`SUCCEEDED` and the subsequent result fetching and row parsing do not
raise; an exception there is caught at line 219 and sets the flag false
even after a successful poll. -/
def runQueries (env : QueryEnv) : Nat → List QueryInfo → Bool × List (String × QueryInfo)
  | _, [] => (true, [])
  | i, q :: rest =>
    let r := runQueries env (i + 1) rest
    match env.submit i with
    | Except.error _ => (false, r.2)
    | Except.ok execId =>
      let ok :=
        match (queryPoll (env.statuses i)).result with
        | PollResult.Succeeded =>
          match env.results i with
          | Except.ok _ => true
          | Except.error _ => false
        | _ => false
      (ok && r.1, (execId, q) :: r.2)

/-- Embedding of `DataPipelineTester.test_athena_query` (lines 105-237):
the returned pair `(all_queries_passed, query_executions)`. The printed
interpretation of the fetched rows (scalar/list/grouped) has no observable
effect beyond the possibility of raising, which `QueryEnv.results`
captures. -/
def test_athena_query (queries : List QueryInfo) (env : QueryEnv) :
    Bool × List (String × QueryInfo) :=
  runQueries env 0 queries

lemma waitAux_succeeds_at (seq : Nat → String) :
    ∀ fuel i k, k < fuel → seq (i + k) = "Active" →
      (∀ j, j < k → seq (i + j) = "Pending") →
      waitAux seq i fuel = ⟨PollResult.Succeeded, k + 1, k⟩ := by
  intro fuel
  induction fuel with
  | zero => intro i k hk _ _; exact absurd hk (Nat.not_lt_zero k)
  | succ fuel ih =>
    intro i k hk hs hp
    cases k with
    | zero =>
      rw [Nat.add_zero] at hs
      simp [waitAux, hs]
    | succ k =>
      have h0 : seq i = "Pending" := by
        have := hp 0 (Nat.succ_pos k)
        rwa [Nat.add_zero] at this
      have hrec := ih (i + 1) k (Nat.lt_of_succ_lt_succ hk)
        (by rw [show i + 1 + k = i + (k + 1) from by omega]; exact hs)
        (fun j hj => by
          rw [show i + 1 + j = i + (j + 1) from by omega]
          exact hp (j + 1) (Nat.succ_lt_succ hj))
      simp [waitAux, h0, hrec]

lemma waitAux_terminal_at (seq : Nat → String) :
    ∀ fuel i k, k < fuel → seq (i + k) ≠ "Active" → seq (i + k) ≠ "Pending" →
      (∀ j, j < k → seq (i + j) = "Pending") →
      waitAux seq i fuel = ⟨PollResult.FailedTerminal, k + 1, k⟩ := by
  intro fuel
  induction fuel with
  | zero => intro i k hk _ _ _; exact absurd hk (Nat.not_lt_zero k)
  | succ fuel ih =>
    intro i k hk ha hpend hp
    cases k with
    | zero =>
      rw [Nat.add_zero] at ha hpend
      simp [waitAux, ha, hpend]
    | succ k =>
      have h0 : seq i = "Pending" := by
        have := hp 0 (Nat.succ_pos k)
        rwa [Nat.add_zero] at this
      have hrec := ih (i + 1) k (Nat.lt_of_succ_lt_succ hk)
        (by rw [show i + 1 + k = i + (k + 1) from by omega]; exact ha)
        (by rw [show i + 1 + k = i + (k + 1) from by omega]; exact hpend)
        (fun j hj => by
          rw [show i + 1 + j = i + (j + 1) from by omega]
          exact hp (j + 1) (Nat.succ_lt_succ hj))
      simp [waitAux, h0, hrec]

lemma waitAux_timeout (seq : Nat → String) :
    ∀ fuel i, (∀ j, j < fuel → seq (i + j) = "Pending") →
      waitAux seq i fuel = ⟨PollResult.TimedOut, fuel, fuel⟩ := by
  intro fuel
  induction fuel with
  | zero => intro i _; rfl
  | succ fuel ih =>
    intro i hp
    have h0 : seq i = "Pending" := by
      have := hp 0 (Nat.succ_pos fuel)
      rwa [Nat.add_zero] at this
    have hrec := ih (i + 1)
      (fun j hj => by
        rw [show i + 1 + j = i + (j + 1) from by omega]
        exact hp (j + 1) (Nat.succ_lt_succ hj))
    simp [waitAux, h0, hrec]

lemma queryPollAux_succeeds_at (seq : Nat → String) :
    ∀ fuel i k, k < fuel → seq (i + k) = "SUCCEEDED" →
      (∀ j, j < k → queryWaits (seq (i + j))) →
      queryPollAux seq i fuel = ⟨PollResult.Succeeded, k + 1, k⟩ := by
  intro fuel
  induction fuel with
  | zero => intro i k hk _ _; exact absurd hk (Nat.not_lt_zero k)
  | succ fuel ih =>
    intro i k hk hs hp
    cases k with
    | zero =>
      rw [Nat.add_zero] at hs
      simp [queryPollAux, hs]
    | succ k =>
      have h0 : queryWaits (seq i) := by
        have := hp 0 (Nat.succ_pos k)
        rwa [Nat.add_zero] at this
      have hrec := ih (i + 1) k (Nat.lt_of_succ_lt_succ hk)
        (by rw [show i + 1 + k = i + (k + 1) from by omega]; exact hs)
        (fun j hj => by
          rw [show i + 1 + j = i + (j + 1) from by omega]
          exact hp (j + 1) (Nat.succ_lt_succ hj))
      simp [queryPollAux, h0.1, h0.2.1, h0.2.2, hrec]

lemma queryPollAux_terminal_at (seq : Nat → String) :
    ∀ fuel i k, k < fuel → (seq (i + k) = "FAILED" ∨ seq (i + k) = "CANCELLED") →
      (∀ j, j < k → queryWaits (seq (i + j))) →
      queryPollAux seq i fuel = ⟨PollResult.FailedTerminal, k + 1, k⟩ := by
  intro fuel
  induction fuel with
  | zero => intro i k hk _ _; exact absurd hk (Nat.not_lt_zero k)
  | succ fuel ih =>
    intro i k hk ht hp
    cases k with
    | zero =>
      rw [Nat.add_zero] at ht
      rcases ht with h | h <;> simp [queryPollAux, h]
    | succ k =>
      have h0 : queryWaits (seq i) := by
        have := hp 0 (Nat.succ_pos k)
        rwa [Nat.add_zero] at this
      have hrec := ih (i + 1) k (Nat.lt_of_succ_lt_succ hk)
        (by rw [show i + 1 + k = i + (k + 1) from by omega]; exact ht)
        (fun j hj => by
          rw [show i + 1 + j = i + (j + 1) from by omega]
          exact hp (j + 1) (Nat.succ_lt_succ hj))
      simp [queryPollAux, h0.1, h0.2.1, h0.2.2, hrec]

lemma queryPollAux_timeout (seq : Nat → String) :
    ∀ fuel i, (∀ j, j < fuel → queryWaits (seq (i + j))) →
      queryPollAux seq i fuel = ⟨PollResult.TimedOut, fuel, fuel⟩ := by
  intro fuel
  induction fuel with
  | zero => intro i _; rfl
  | succ fuel ih =>
    intro i hp
    have h0 : queryWaits (seq i) := by
      have := hp 0 (Nat.succ_pos fuel)
      rwa [Nat.add_zero] at this
    have hrec := ih (i + 1)
      (fun j hj => by
        rw [show i + 1 + j = i + (j + 1) from by omega]
        exact hp (j + 1) (Nat.succ_lt_succ hj))
    simp [queryPollAux, h0.1, h0.2.1, h0.2.2, hrec]


/-- C1: for every status sequence presented to either polling loop of the
system (`wait_for_function_ready` and the Athena query-status loop): a status
satisfying the success predicate reached within the attempt budget (all
earlier fetched statuses being in-progress) yields `Succeeded`; a status
satisfying the terminal-failure predicate yields `FailedTerminal`
immediately, with exactly `k + 1` fetches performed — no further attempts
regardless of the remaining budget; a sequence whose fetched statuses
never match either predicate within the budget yields `TimedOut`. -/
theorem poll_loop_trichotomy :
    (∀ (seq : Nat → String) (m k : Nat), k < m → seq k = "Active" →
      (∀ j, j < k → seq j = "Pending") →
      (waitForFunctionReady seq m).result = PollResult.Succeeded)
    ∧ (∀ (seq : Nat → String) (m k : Nat), k < m →
      seq k ≠ "Active" → seq k ≠ "Pending" →
      (∀ j, j < k → seq j = "Pending") →
      waitForFunctionReady seq m = ⟨PollResult.FailedTerminal, k + 1, k⟩)
    ∧ (∀ (seq : Nat → String) (m : Nat), (∀ j, j < m → seq j = "Pending") →
      (waitForFunctionReady seq m).result = PollResult.TimedOut)
    ∧ (∀ (seq : Nat → String) (m k : Nat), k < m → seq k = "SUCCEEDED" →
      (∀ j, j < k → queryWaits (seq j)) →
      (queryPollLoop seq m).result = PollResult.Succeeded)
    ∧ (∀ (seq : Nat → String) (m k : Nat), k < m →
      (seq k = "FAILED" ∨ seq k = "CANCELLED") →
      (∀ j, j < k → queryWaits (seq j)) →
      queryPollLoop seq m = ⟨PollResult.FailedTerminal, k + 1, k⟩)
    ∧ (∀ (seq : Nat → String) (m : Nat), (∀ j, j < m → queryWaits (seq j)) →
      (queryPollLoop seq m).result = PollResult.TimedOut) := by
  refine ⟨?_, ?_, ?_, ?_, ?_, ?_⟩
  · intro seq m k hk hs hp
    rw [waitForFunctionReady,
      waitAux_succeeds_at seq m 0 k hk (by simpa using hs) (by simpa using hp)]
  · intro seq m k hk ha hpend hp
    rw [waitForFunctionReady]
    exact waitAux_terminal_at seq m 0 k hk (by simpa using ha)
      (by simpa using hpend) (by simpa using hp)
  · intro seq m hp
    rw [waitForFunctionReady, waitAux_timeout seq m 0 (by simpa using hp)]
  · intro seq m k hk hs hp
    rw [queryPollLoop,
      queryPollAux_succeeds_at seq m 0 k hk (by simpa using hs) (by simpa using hp)]
  · intro seq m k hk ht hp
    rw [queryPollLoop]
    exact queryPollAux_terminal_at seq m 0 k hk (by simpa using ht)
      (by simpa using hp)
  · intro seq m hp
    rw [queryPollLoop, queryPollAux_timeout seq m 0 (by simpa using hp)]

/-- Witness for C1: a function that is `Pending` once and then `Active`,
polled with a budget of 5, succeeds; and a query that reports `FAILED` on
its first fetch fails terminally after exactly one fetch. -/
theorem poll_loop_trichotomy_witness :
    (waitForFunctionReady (fun n => if n = 0 then "Pending" else "Active") 5).result
        = PollResult.Succeeded
    ∧ queryPollLoop (fun _ => "FAILED") 30 = ⟨PollResult.FailedTerminal, 1, 0⟩ := by
  constructor
  · exact poll_loop_trichotomy.1 (fun n => if n = 0 then "Pending" else "Active") 5 1
      (by decide) rfl
      (fun j hj => by
        have hj0 : j = 0 := Nat.lt_one_iff.mp hj
        subst hj0; rfl)
  · exact poll_loop_trichotomy.2.2.2.2.1 (fun _ => "FAILED") 30 0 (by decide)
      (Or.inl rfl) (fun j hj => absurd hj (Nat.not_lt_zero j))

/-- Counterexample for C3: the query-status loop of `test_athena_query`,
fed the unrecognized status `BOGUS` on every fetch (which is neither a
recognized success state nor a recognized in-progress state), sleeps on
every one of its 30 attempts and ends in `TimedOut`, not `FailedTerminal`. -/
theorem unrecognized_query_status_loops :
    (queryPoll (fun _ => "BOGUS")).result = PollResult.TimedOut
    ∧ (queryPoll (fun _ => "BOGUS")).sleeps = 30 := by
  constructor <;> rfl

/-- C3 as amended: only the function-readiness poll maps an unrecognized
state to `FailedTerminal` immediately (exactly `k + 1` fetches, no sleep
after the unrecognized fetch); the query-status loop treats every status
other than `SUCCEEDED`, `FAILED` and `CANCELLED` — recognized in-progress or
not — as a reason to sleep and retry, ending in `TimedOut` with one sleep
per attempt when such statuses persist. -/
theorem unrecognized_status_handling :
    (∀ (seq : Nat → String) (m k : Nat), k < m →
      seq k ≠ "Active" → seq k ≠ "Pending" →
      (∀ j, j < k → seq j = "Pending") →
      waitForFunctionReady seq m = ⟨PollResult.FailedTerminal, k + 1, k⟩)
    ∧ (∀ (seq : Nat → String) (m : Nat), (∀ j, j < m → queryWaits (seq j)) →
      queryPollLoop seq m = ⟨PollResult.TimedOut, m, m⟩) := by
  constructor
  · intro seq m k hk ha hpend hp
    rw [waitForFunctionReady]
    exact waitAux_terminal_at seq m 0 k hk (by simpa using ha)
      (by simpa using hpend) (by simpa using hp)
  · intro seq m hp
    rw [queryPollLoop, queryPollAux_timeout seq m 0 (by simpa using hp)]

/-- Witness for the amended C3: a function state `Gibberish` on the first
fetch fails terminally at once, and a query status stuck at `BOGUS` for a
budget of 3 times out after 3 sleeps. -/
theorem unrecognized_status_handling_witness :
    waitForFunctionReady (fun _ => "Gibberish") 30 = ⟨PollResult.FailedTerminal, 1, 0⟩
    ∧ queryPollLoop (fun _ => "BOGUS") 3 = ⟨PollResult.TimedOut, 3, 3⟩ := by
  constructor
  · exact unrecognized_status_handling.1 (fun _ => "Gibberish") 30 0 (by decide)
      (by decide) (by decide) (fun j hj => absurd hj (Nat.not_lt_zero j))
  · exact unrecognized_status_handling.2 (fun _ => "BOGUS") 3
      (fun j _ => by simp [queryWaits])

/-- Counterexample for C4: a crawler observed in state `RUNNING` is not
polled repeatedly until it leaves the running state — `test_glue_crawler`
returns success immediately after a single `get_crawler` call with zero
sleeps, so the scenario of reaching `READY` on a 2nd poll after 2 sleeps
never occurs. -/
theorem crawler_running_not_polled :
    testGlueCrawler (Except.ok "RUNNING") (Except.ok ()) = ⟨true, false, 1, 0⟩ := rfl

/-- C4 as amended: the crawler stage performs exactly one state fetch and
never sleeps; a crawler observed `READY` has `start_crawler` issued and is
reported successful exactly when that call does not raise; a crawler
observed `RUNNING` is reported successful immediately without further
polling; any other state, or a lookup error, is reported as failure. -/
theorem crawler_stage_single_fetch (fetch : Except String String)
    (startOutcome : Except String Unit) :
    (testGlueCrawler fetch startOutcome).getCrawlerCalls = 1
    ∧ (testGlueCrawler fetch startOutcome).sleeps = 0
    ∧ ((testGlueCrawler fetch startOutcome).success = true
        ↔ ((fetch = Except.ok "READY" ∧ startOutcome = Except.ok ())
            ∨ fetch = Except.ok "RUNNING"))
    ∧ ((testGlueCrawler fetch startOutcome).startedCrawler = true
        ↔ fetch = Except.ok "READY") := by
  match fetch with
  | Except.error e => simp [testGlueCrawler]
  | Except.ok state =>
    by_cases h1 : state = "READY"
    · subst h1
      match startOutcome with
      | Except.ok u => cases u; simp [testGlueCrawler]
      | Except.error e => simp [testGlueCrawler]
    · by_cases h2 : state = "RUNNING"
      · subst h2; simp [testGlueCrawler, h1]
      · simp [testGlueCrawler, h1, h2]

lemma runStep_eq (a : CleanupAction) (outcome : CleanupAction → Except String Unit) :
    runStep a outcome = [a] := by
  unfold runStep
  cases outcome a <;> rfl

lemma manual_resource_cleanup_eq (cfg : Config)
    (outcome : CleanupAction → Except String Unit) :
    manual_resource_cleanup cfg outcome =
      [CleanupAction.deleteFunction cfg.lambda_function_name,
       CleanupAction.deleteCrawler cfg.crawler_name,
       CleanupAction.deleteDatabase cfg.database_name] ++ bucketDeletes cfg := by
  unfold manual_resource_cleanup bucketDeletes
  cases cfg.data_bucket <;> cases cfg.results_bucket <;> simp [runStep_eq]

/-- C2: when the stack was found and the delegated `cdk destroy` fails, the
cleanup trace is exactly: workgroup cleaning, bucket emptying, the primary
destroy, then each fallback step once in declared order (delete function,
delete crawler, delete database, delete each configured bucket), then the
forced stack deletion once, then verification — independent of every
individual step's outcome; when the primary destroy succeeds, no fallback
step and no forced deletion appears in the trace. -/
theorem fallback_chain_order (cfg0 : Config) (env : CleanupEnv)
    (hex : (get_stack_resources env.describeStacks cfg0).2.1 = true) :
    (run_cdk_destroy env.cdkResult = false →
      (run_cleanup cfg0 env).2 =
        [CleanupAction.cleanWorkgroup, CleanupAction.emptyBuckets,
         CleanupAction.cdkDestroy,
         CleanupAction.deleteFunction (get_stack_resources env.describeStacks cfg0).1.lambda_function_name,
         CleanupAction.deleteCrawler (get_stack_resources env.describeStacks cfg0).1.crawler_name,
         CleanupAction.deleteDatabase (get_stack_resources env.describeStacks cfg0).1.database_name] ++
        bucketDeletes (get_stack_resources env.describeStacks cfg0).1 ++
        [CleanupAction.forceDeleteStack (get_stack_resources env.describeStacks cfg0).1.stack_name,
         CleanupAction.verify])
    ∧ (run_cdk_destroy env.cdkResult = true →
      (run_cleanup cfg0 env).2 =
        [CleanupAction.cleanWorkgroup, CleanupAction.emptyBuckets,
         CleanupAction.cdkDestroy, CleanupAction.verify]) := by
  constructor <;> intro h <;>
    simp [run_cleanup, hex, h, manual_resource_cleanup_eq]

/-- Witness for C2: with the stack present in `CREATE_COMPLETE`, a failing
`cdk destroy` (return code 1), and default resource names, the trace is the
full fallback chain in order. -/
theorem fallback_chain_order_witness :
    (run_cleanup defaultConfig
      ⟨Except.ok [⟨"CREATE_COMPLETE", []⟩], Except.ok 1, fun _ => Except.ok (),
       ⟨Except.ok [], Except.ok [], Except.ok [], Except.ok [], Except.ok []⟩⟩).2 =
      [CleanupAction.cleanWorkgroup, CleanupAction.emptyBuckets,
       CleanupAction.cdkDestroy,
       CleanupAction.deleteFunction "data-pipeline-data-extractor",
       CleanupAction.deleteCrawler "data-pipeline-crawler",
       CleanupAction.deleteDatabase "data_pipeline_db",
       CleanupAction.forceDeleteStack "DataPipelineStack",
       CleanupAction.verify] := by
  have h := (fallback_chain_order defaultConfig
    ⟨Except.ok [⟨"CREATE_COMPLETE", []⟩], Except.ok 1, fun _ => Except.ok (),
     ⟨Except.ok [], Except.ok [], Except.ok [], Except.ok [], Except.ok []⟩⟩
    (by rfl)).1 (by rfl)
  exact h.trans (by rfl)

/-- C5: the overall verdict of `verify_cleanup` is true exactly when all
five categories (stack, buckets, function, database, workgroup) pass, and
each category's report carries the specific offending resource identifiers:
the filtered bucket, function, database and workgroup names found by the
corresponding listing, and the stack's status when it is not deleted. -/
theorem verification_aggregation (cfg : Config) (env : VerifyEnv) :
    ((verify_cleanup cfg env).1 = true ↔
      ((verifyStack env.describeStacks).passed = true
       ∧ (verifyBuckets env.listBuckets).passed = true
       ∧ (verifyFunctions env.listFunctions).passed = true
       ∧ (verifyDatabases cfg env.getDatabases).passed = true
       ∧ (verifyWorkgroups cfg env.listWorkGroups).passed = true))
    ∧ (∀ names, env.listBuckets = Except.ok names →
        verifyBuckets env.listBuckets =
          ⟨(names.filter (fun n => containsSub n "data-pipeline")).isEmpty,
           names.filter (fun n => containsSub n "data-pipeline")⟩)
    ∧ (∀ names, env.listFunctions = Except.ok names →
        verifyFunctions env.listFunctions =
          ⟨(names.filter (fun n => containsSub n "data-pipeline")).isEmpty,
           names.filter (fun n => containsSub n "data-pipeline")⟩)
    ∧ (∀ names, env.getDatabases = Except.ok names →
        verifyDatabases cfg env.getDatabases =
          ⟨(names.filter (fun n => n = cfg.database_name)).isEmpty,
           names.filter (fun n => n = cfg.database_name)⟩)
    ∧ (∀ names, env.listWorkGroups = Except.ok names →
        verifyWorkgroups cfg env.listWorkGroups =
          ⟨(names.filter (fun n => n = cfg.workgroup_name)).isEmpty,
           names.filter (fun n => n = cfg.workgroup_name)⟩)
    ∧ (∀ stack rest, env.describeStacks = Except.ok (stack :: rest) →
        containsSub stack.status "DELETE_COMPLETE" = false →
        verifyStack env.describeStacks = ⟨false, [stack.status]⟩) := by
  refine ⟨?_, ?_, ?_, ?_, ?_, ?_⟩
  · simp [verify_cleanup, List.all_cons, List.all_nil, Bool.and_eq_true, and_assoc]
  · intro names h; rw [h]; rfl
  · intro names h; rw [h]; rfl
  · intro names h; rw [h]; rfl
  · intro names h; rw [h]; rfl
  · intro stack rest h hst
    rw [h]
    simp [verifyStack, hst]

/-- Witness for C5: the bucket category fails on a listing that still
contains `data-pipeline-bucket-jsonplaceholder` and reports exactly that
name. -/
theorem verification_aggregation_witness :
    verifyBuckets (Except.ok ["data-pipeline-bucket-jsonplaceholder"]) =
      ⟨false, ["data-pipeline-bucket-jsonplaceholder"]⟩ := by
  have h := (verification_aggregation defaultConfig
    ⟨Except.ok [], Except.ok ["data-pipeline-bucket-jsonplaceholder"],
     Except.ok [], Except.ok [], Except.ok []⟩).2.1
    ["data-pipeline-bucket-jsonplaceholder"] rfl
  exact h.trans (by rfl)

/-- C6: when the stack record is absent — the `describe_stacks` lookup
raises, or returns no stacks — `verify_cleanup` classifies the stack
category as passing with nothing to report, not as an error or a failing
category. -/
theorem stack_absent_passes :
    (∀ e, verifyStack (Except.error e) = ⟨true, []⟩)
    ∧ verifyStack (Except.ok []) = ⟨true, []⟩ :=
  ⟨fun _ => rfl, rfl⟩

/-- C7: for every paginated listing of a bucket on which no `delete_objects`
invocation raises, the keys handed to the `delete_objects` invocations are,
in order, exactly the listed keys, and the reported deleted count equals
the total number of listed keys; in particular 1,204 keys over 3 pages
yield a reported count of 1,204 with every key deleted. -/
theorem bucket_emptying_complete :
    (∀ (deleteOutcome : List String → Except String Unit)
      (pages : List (List String)),
      (∀ page, page ∈ pages → deleteOutcome page = Except.ok ()) →
      (empty_bucket_pages deleteOutcome pages).2.flatten = pages.flatten
      ∧ (empty_bucket_pages deleteOutcome pages).1 = some pages.flatten.length)
    ∧ (empty_bucket_pages (fun _ => Except.ok ()) scenarioPages).1 = some 1204
    ∧ (empty_bucket_pages (fun _ => Except.ok ()) scenarioPages).2.flatten
        = scenarioPages.flatten := by
  have hgen : ∀ (deleteOutcome : List String → Except String Unit)
      (pages : List (List String)),
      (∀ page, page ∈ pages → deleteOutcome page = Except.ok ()) →
      (empty_bucket_pages deleteOutcome pages).2.flatten = pages.flatten
      ∧ (empty_bucket_pages deleteOutcome pages).1 = some pages.flatten.length := by
    intro dout pages
    induction pages with
    | nil => intro _; exact ⟨rfl, rfl⟩
    | cons page rest ih =>
      intro h
      have hpage : dout page = Except.ok () := h page (List.mem_cons_self page rest)
      have hrest := ih (fun p hp => h p (List.mem_cons_of_mem page hp))
      cases page with
      | nil => simpa [empty_bucket_pages] using hrest
      | cons a as =>
        constructor
        · simp [empty_bucket_pages, hpage, List.flatten, hrest.1]
        · simp [empty_bucket_pages, hpage, List.flatten, hrest.2, List.length_append]
          omega
  refine ⟨hgen, ?_,
    (hgen (fun _ => Except.ok ()) scenarioPages (fun page _ => rfl)).1⟩
  rw [(hgen (fun _ => Except.ok ()) scenarioPages (fun page _ => rfl)).2]
  simp [scenarioPages, scenarioPage, List.flatten]

/-- Witness for C7: a 3-key listing over three pages (one of them empty)
with all deletes succeeding reports a count of 3 and covers all keys. -/
theorem bucket_emptying_complete_witness :
    (empty_bucket_pages (fun _ => Except.ok ()) [["a"], [], ["b", "c"]]).1 = some 3
    ∧ (empty_bucket_pages (fun _ => Except.ok ()) [["a"], [], ["b", "c"]]).2.flatten
        = ["a", "b", "c"] := by
  have h := bucket_emptying_complete.1 (fun _ => Except.ok ())
    [["a"], [], ["b", "c"]] (fun page _ => rfl)
  exact ⟨h.2.trans (by rfl), h.1.trans (by rfl)⟩

/-- Counterexample for C8: three queries are submitted and every execution
reaches the `SUCCEEDED` terminal state (the polled status is `SUCCEEDED` on
the first fetch of every query), yet the aggregate success flag is `false`,
because the first query's `get_query_results`/row-parsing step raises and
the exception is caught at line 219 of `test_pipeline.py`; the three
records are nonetheless returned. -/
theorem query_results_error_flips_flag :
    (queryPoll (fun _ => "SUCCEEDED")).result = PollResult.Succeeded
    ∧ test_athena_query
        [⟨"count_rows_12:00", "Total record count"⟩,
         ⟨"users_12:00", "User data"⟩,
         ⟨"users_by_city_12:00", "Users by city"⟩]
        ⟨fun i => Except.ok (toString i), fun _ _ => "SUCCEEDED",
         fun i => if i = 0 then Except.error "get_query_results raised"
                  else Except.ok ()⟩ =
      (false,
       [("0", ⟨"count_rows_12:00", "Total record count"⟩),
        ("1", ⟨"users_12:00", "User data"⟩),
        ("2", ⟨"users_by_city_12:00", "Users by city"⟩)]) := by
  constructor <;> rfl

/-- C8 as amended: three queries whose submissions succeed, whose
executions all reach `SUCCEEDED` and whose result retrieval and parsing do
not raise produce exactly three `(execution_id, query_info)` records in
submission order together with the aggregate flag `true`; a failing first
query — whether its submission raises, its execution ends terminally, or
its result retrieval raises after a successful poll — turns the flag false
but the remaining queries are still submitted and tracked. -/
theorem query_tracker_mapping :
    (∀ (q1 q2 q3 : QueryInfo) (env : QueryEnv) (e0 e1 e2 : String),
      env.submit 0 = Except.ok e0 → env.submit 1 = Except.ok e1 →
      env.submit 2 = Except.ok e2 →
      (queryPoll (env.statuses 0)).result = PollResult.Succeeded →
      (queryPoll (env.statuses 1)).result = PollResult.Succeeded →
      (queryPoll (env.statuses 2)).result = PollResult.Succeeded →
      env.results 0 = Except.ok () → env.results 1 = Except.ok () →
      env.results 2 = Except.ok () →
      test_athena_query [q1, q2, q3] env = (true, [(e0, q1), (e1, q2), (e2, q3)]))
    ∧ (∀ (q1 q2 q3 : QueryInfo) (env : QueryEnv) (err e1 e2 : String),
      env.submit 0 = Except.error err → env.submit 1 = Except.ok e1 →
      env.submit 2 = Except.ok e2 →
      (queryPoll (env.statuses 1)).result = PollResult.Succeeded →
      (queryPoll (env.statuses 2)).result = PollResult.Succeeded →
      env.results 1 = Except.ok () → env.results 2 = Except.ok () →
      test_athena_query [q1, q2, q3] env = (false, [(e1, q2), (e2, q3)]))
    ∧ (∀ (q1 q2 q3 : QueryInfo) (env : QueryEnv) (e0 e1 e2 : String),
      env.submit 0 = Except.ok e0 → env.submit 1 = Except.ok e1 →
      env.submit 2 = Except.ok e2 →
      (queryPoll (env.statuses 0)).result = PollResult.FailedTerminal →
      (queryPoll (env.statuses 1)).result = PollResult.Succeeded →
      (queryPoll (env.statuses 2)).result = PollResult.Succeeded →
      env.results 1 = Except.ok () → env.results 2 = Except.ok () →
      test_athena_query [q1, q2, q3] env = (false, [(e0, q1), (e1, q2), (e2, q3)]))
    ∧ (∀ (q1 q2 q3 : QueryInfo) (env : QueryEnv) (e0 e1 e2 err : String),
      env.submit 0 = Except.ok e0 → env.submit 1 = Except.ok e1 →
      env.submit 2 = Except.ok e2 →
      (queryPoll (env.statuses 0)).result = PollResult.Succeeded →
      (queryPoll (env.statuses 1)).result = PollResult.Succeeded →
      (queryPoll (env.statuses 2)).result = PollResult.Succeeded →
      env.results 0 = Except.error err → env.results 1 = Except.ok () →
      env.results 2 = Except.ok () →
      test_athena_query [q1, q2, q3] env = (false, [(e0, q1), (e1, q2), (e2, q3)])) := by
  refine ⟨?_, ?_, ?_, ?_⟩
  · intro q1 q2 q3 env e0 e1 e2 h0 h1 h2 hp0 hp1 hp2 hr0 hr1 hr2
    simp [test_athena_query, runQueries, h0, h1, h2, hp0, hp1, hp2, hr0, hr1, hr2]
  · intro q1 q2 q3 env err e1 e2 h0 h1 h2 hp1 hp2 hr1 hr2
    simp [test_athena_query, runQueries, h0, h1, h2, hp1, hp2, hr1, hr2]
  · intro q1 q2 q3 env e0 e1 e2 h0 h1 h2 hp0 hp1 hp2 hr1 hr2
    simp [test_athena_query, runQueries, h0, h1, h2, hp0, hp1, hp2, hr1, hr2]
  · intro q1 q2 q3 env e0 e1 e2 err h0 h1 h2 hp0 hp1 hp2 hr0 hr1 hr2
    simp [test_athena_query, runQueries, h0, h1, h2, hp0, hp1, hp2, hr0, hr1, hr2]

/-- Witness for the amended C8: the three named queries of the source, all
submitted successfully, all reaching `SUCCEEDED` with result retrieval
succeeding, give the flag `true` and the three records in order. -/
theorem query_tracker_mapping_witness :
    test_athena_query
      [⟨"count_rows_12:00", "Total record count"⟩,
       ⟨"users_12:00", "User data"⟩,
       ⟨"users_by_city_12:00", "Users by city"⟩]
      ⟨fun i => Except.ok (toString i), fun _ _ => "SUCCEEDED",
       fun _ => Except.ok ()⟩ =
      (true,
       [("0", ⟨"count_rows_12:00", "Total record count"⟩),
        ("1", ⟨"users_12:00", "User data"⟩),
        ("2", ⟨"users_by_city_12:00", "Users by city"⟩)]) :=
  query_tracker_mapping.1 _ _ _
    ⟨fun i => Except.ok (toString i), fun _ _ => "SUCCEEDED",
     fun _ => Except.ok ()⟩
    "0" "1" "2" rfl rfl rfl rfl rfl rfl rfl rfl rfl

/-- Counterexample for C9: in `test_pipeline.py`, when the authoritative
deployment-record read is unreachable, `get_stack_outputs` does not return
a defaults-filled configuration — it returns nothing and the caller
aborts. -/
theorem resolution_failure_returns_none :
    get_stack_outputs (Except.error "stack unreachable") = none := rfl

lemma applyOutputs_fixed_fields (outs : List StackOutput) :
    ∀ cfg : Config,
      (applyOutputs outs cfg).stack_name = cfg.stack_name
      ∧ (applyOutputs outs cfg).workgroup_name = cfg.workgroup_name
      ∧ (applyOutputs outs cfg).database_name = cfg.database_name
      ∧ (applyOutputs outs cfg).crawler_name = cfg.crawler_name := by
  induction outs with
  | nil => intro cfg; exact ⟨rfl, rfl, rfl, rfl⟩
  | cons o rest ih =>
    intro cfg
    simp only [applyOutputs]
    by_cases h1 : o.key = "DataBucketName"
    · simpa [h1] using ih { cfg with data_bucket := some o.value }
    · by_cases h2 : o.key = "AthenaResultsBucketName"
      · simpa [h1, h2] using ih { cfg with results_bucket := some o.value }
      · by_cases h3 : o.key = "LambdaFunctionName"
        · simpa [h1, h2, h3] using ih { cfg with lambda_function_name := o.value }
        · simpa [h1, h2, h3] using ih cfg

/-- C9 as amended: in the cleanup tool resolution never fails — an
unreachable record leaves the whole default configuration in place and sets
the warning flag, a reachable record never sets it, and the roles the
outputs cannot override (stack, workgroup, database, crawler) always keep
their configured values; in the test tool, however, an unreachable record
yields no configuration at all (`None`) rather than defaults. -/
theorem resolution_fallback_behaviour :
    (∀ (e : String) (cfg : Config),
      get_stack_resources (Except.error e) cfg = (cfg, false, true))
    ∧ (∀ (stackList : List StackDesc) (cfg : Config),
      (get_stack_resources (Except.ok stackList) cfg).2.2 = false)
    ∧ (∀ (stackList : List StackDesc) (cfg : Config),
      (get_stack_resources (Except.ok stackList) cfg).1.stack_name = cfg.stack_name
      ∧ (get_stack_resources (Except.ok stackList) cfg).1.workgroup_name = cfg.workgroup_name
      ∧ (get_stack_resources (Except.ok stackList) cfg).1.database_name = cfg.database_name
      ∧ (get_stack_resources (Except.ok stackList) cfg).1.crawler_name = cfg.crawler_name)
    ∧ (∀ e, get_stack_outputs (Except.error e) = none) := by
  refine ⟨fun e cfg => rfl, ?_, ?_, fun e => rfl⟩
  · intro stackList cfg
    cases stackList with
    | nil => rfl
    | cons stack rest =>
      simp only [get_stack_resources]
      split <;> rfl
  · intro stackList cfg
    cases stackList with
    | nil => exact ⟨rfl, rfl, rfl, rfl⟩
    | cons stack rest =>
      simp only [get_stack_resources]
      split
      · exact ⟨rfl, rfl, rfl, rfl⟩
      · exact applyOutputs_fixed_fields stack.outputs cfg

/-- C10: the exit status of `run_cleanup` is 0 exactly when all five
verification categories pass — independent of whether the workgroup
cleaning, bucket emptying, `cdk destroy` or any fallback step reported
failure — and is 1 in every other case. -/
theorem exit_code_from_verification (cfg0 : Config) (env : CleanupEnv) :
    ((run_cleanup cfg0 env).1 = 0 ↔
      ((verifyStack env.verifyEnv.describeStacks).passed = true
       ∧ (verifyBuckets env.verifyEnv.listBuckets).passed = true
       ∧ (verifyFunctions env.verifyEnv.listFunctions).passed = true
       ∧ (verifyDatabases (get_stack_resources env.describeStacks cfg0).1
            env.verifyEnv.getDatabases).passed = true
       ∧ (verifyWorkgroups (get_stack_resources env.describeStacks cfg0).1
            env.verifyEnv.listWorkGroups).passed = true))
    ∧ ((run_cleanup cfg0 env).1 = 0 ∨ (run_cleanup cfg0 env).1 = 1) := by
  have hdef : (run_cleanup cfg0 env).1 =
      (if (verify_cleanup (get_stack_resources env.describeStacks cfg0).1
            env.verifyEnv).1 then 0 else 1) := rfl
  have h2 :
      ((verify_cleanup (get_stack_resources env.describeStacks cfg0).1
          env.verifyEnv).1 = true ↔
        ((verifyStack env.verifyEnv.describeStacks).passed = true
         ∧ (verifyBuckets env.verifyEnv.listBuckets).passed = true
         ∧ (verifyFunctions env.verifyEnv.listFunctions).passed = true
         ∧ (verifyDatabases (get_stack_resources env.describeStacks cfg0).1
              env.verifyEnv.getDatabases).passed = true
         ∧ (verifyWorkgroups (get_stack_resources env.describeStacks cfg0).1
              env.verifyEnv.listWorkGroups).passed = true)) := by
    simp [verify_cleanup, List.all_cons, List.all_nil, Bool.and_eq_true, and_assoc]
  constructor
  · rw [hdef]
    cases hb : (verify_cleanup (get_stack_resources env.describeStacks cfg0).1
        env.verifyEnv).1
    · rw [hb] at h2
      simp [← h2]
    · rw [hb] at h2
      simp [← h2]
  · rw [hdef]
    cases hb : (verify_cleanup (get_stack_resources env.describeStacks cfg0).1
        env.verifyEnv).1 <;> simp

end DataPipeline
